import Mathlib

/-!
Verification of the BMS telemetry acquisition pipeline
(`bms-monitor/app/services/bms_service.py`, `bms-monitor/app/main.py`,
`bms-monitor/app/services/database_service.py`, `bms-monitor/app/api/routes.py`,
`bms-bluetooth-poc/core/bms_mqtt_bridge.py`).

The Python code is shallowly embedded: bytes become `ℕ` (< 256 where it
matters), byte strings become `List ℕ`, Python floats become `ℚ` (every
constant appearing in the source — 0.1, 0.001, 273.1, 24.0, 29.2, … — is
exactly representable at that precision, so `ℚ` is the idealized float
semantics), Python dicts that accumulate decoded fields become structures
with `Option` fields, and `None`-returning / exception-free control flow
becomes `Option`.
-/

namespace BMS

/-! ## Frame codec: CRC-16 and request encoding
(`BMSService.calculate_modbus_crc16`, `BMSService.build_modbus_command`) -/

/-- One pass of the inner `for _ in range(8)` loop of
`calculate_modbus_crc16`, iterated `k` times:
`crc = (crc >> 1) ^ 0xA001` when the low bit is set, else `crc = crc >> 1`. -/
def crcShift (k : ℕ) (crc : ℕ) : ℕ :=
  match k with
  | 0 => crc
  | k + 1 => crcShift k (if crc &&& 0x0001 = 1 then (crc >>> 1) ^^^ 0xA001 else crc >>> 1)

/-- `BMSService.calculate_modbus_crc16`: standard Modbus CRC-16,
seed 0xFFFF, reflected polynomial 0xA001, one `crcShift 8` per byte. -/
def calculate_modbus_crc16 (data : List ℕ) : ℕ :=
  data.foldl (fun crc byte => crcShift 8 (crc ^^^ byte)) 0xFFFF

/-- `BMSService.build_modbus_command`: 6-byte header
`[0xD2, 0x03, addr_hi, addr_lo, count_hi, count_lo]` followed by the CRC,
low byte first. -/
def build_modbus_command (register_addr : ℕ) (num_registers : ℕ) : List ℕ :=
  let packet : List ℕ :=
    [0xD2, 0x03,
     (register_addr >>> 8) &&& 0xFF, register_addr &&& 0xFF,
     (num_registers >>> 8) &&& 0xFF, num_registers &&& 0xFF]
  let crc := calculate_modbus_crc16 packet
  packet ++ [crc &&& 0xFF, (crc >>> 8) &&& 0xFF]

/-- The trailing-CRC check performed on a received frame by
`BMSService.parse_modbus_response`: the little-endian 16-bit word formed by
the last two bytes must equal the CRC computed over everything before them
(`struct.unpack('<H', response[-2:]) == calculate_modbus_crc16(response[:-2])`). -/
def crcTrailingValid (frame : List ℕ) : Bool :=
  frame.getD (frame.length - 2) 0 + 256 * frame.getD (frame.length - 1) 0
    == calculate_modbus_crc16 (frame.take (frame.length - 2))

/-! ## Decoded-field data model

The Python code accumulates decoded values in dicts; we model them as
structures of `Option` fields. The Chinese direction strings
"放電"/"靜止"/"充電" are modelled by the inductive `Direction`
(`discharge`/`idle`/`charge`). -/

inductive Direction
  | discharge
  | idle
  | charge
deriving DecidableEq, Repr

/-- The configurable SOC settings of `BMSService.__init__`
(defaults `soc_register=0x002C`, `soc_scale=0.1`, `soc_offset=0.0`). -/
structure BMSConfig where
  socRegister : ℕ := 0x002C
  socScale : ℚ := 0.1
  socOffset : ℚ := 0

def defaultConfig : BMSConfig := {}

/-- Big-endian 16-bit word from two bytes (`struct.unpack('>H', …)`). -/
def u16be (b0 b1 : ℕ) : ℕ := b0 * 256 + b1

/-- Big-endian 16-bit word at byte offset `pos` of a payload. -/
def u16at (bs : List ℕ) (pos : ℕ) : ℕ := u16be (bs.getD pos 0) (bs.getD (pos + 1) 0)

/-- The fields `BMSService.parse_register_data` can put into its result dict. -/
structure RegFields where
  total_voltage : Option ℚ := none
  current : Option ℚ := none
  current_direction : Option Direction := none
  cell_voltages : Option (List ℚ) := none
  temperatures : Option (List ℚ) := none
  soc : Option ℚ := none
deriving DecidableEq, Repr

/-- Cell-voltage loop of `parse_register_data`:
`for i in range(0, min(len(data), 16), 2): if i+1 < len(data): raw > 0 → raw*0.001`. -/
def parseCells (data : List ℕ) : List ℚ :=
  ((List.range 8).map (· * 2)).foldr (fun i acc =>
    if i < min data.length 16 ∧ i + 1 < data.length then
      (if u16at data i > 0 then ((u16at data i : ℚ)) * 0.001 :: acc else acc)
    else acc) []

/-- Temperature loop of `parse_register_data`:
`for i in range(0, min(len(data), 8), 2): if i+1 < len(data): (raw/10.0)-273.1`,
keeping values in `[-40, 120]`. -/
def parseTemps (data : List ℕ) : List ℚ :=
  ((List.range 4).map (· * 2)).foldr (fun i acc =>
    if i < min data.length 8 ∧ i + 1 < data.length then
      (let t : ℚ := (u16at data i : ℚ) / 10 - 273.1
       if -40 ≤ t ∧ t ≤ 120 then t :: acc else acc)
    else acc) []

/-- `BMSService.parse_register_data`: the elif chain over the register map
`{total_voltage: 0x0028, current: 0x0029, cell_voltage_base: 0x0000,
temperature_base: 0x0020, soc: cfg.socRegister}`. -/
def parse_register_data (cfg : BMSConfig) (register_addr : ℕ) (data : List ℕ) :
    RegFields :=
  if register_addr = 0x0028 ∧ 2 ≤ data.length then
    { total_voltage := some ((u16at data 0 : ℚ) * 0.1) }
  else if register_addr = 0x0029 ∧ 2 ≤ data.length then
    let raw := u16at data 0
    if raw ≥ 30000 then
      let actual : ℚ := ((raw : ℚ) - 30000) * 0.1
      { current := some actual,
        current_direction := some (if actual > 0 then .discharge else .idle) }
    else
      let actual : ℚ := ((30000 : ℚ) - (raw : ℚ)) * 0.1
      { current := some (-actual), current_direction := some .charge }
  else if register_addr = 0x0000 then
    { cell_voltages := some (parseCells data) }
  else if register_addr = 0x0020 then
    { temperatures := some (parseTemps data) }
  else if register_addr = cfg.socRegister ∧ 2 ≤ data.length then
    { soc := some ((u16at data 0 : ℚ) * 0.1) }
  else {}

/-- The error cases of `BMSService.parse_modbus_response`
(dicts containing only an `"error"` key). -/
inductive ModbusErr
  | tooShort
  | wrongSlave (got : ℕ)
  | modbusException (func code : ℕ)
  | wrongFunc (got : ℕ)
  | lenShort
deriving DecidableEq, Repr

/-- Result of `BMSService.parse_modbus_response`: either an error dict or a
dict with `raw_data`, `data_length`, `crc_valid` plus the register fields. -/
inductive ParseOutcome
  | err (e : ModbusErr)
  | ok (raw_data : List ℕ) (data_length : ℕ) (crc_valid : Bool) (fields : RegFields)
deriving DecidableEq, Repr

/-- `BMSService.parse_modbus_response`: length, slave byte, function byte and
declared-length checks in order, then the CRC comparison (recorded in
`crc_valid`, not a rejection), then `parse_register_data` on the payload at
the address taken from the command. -/
def parse_modbus_response (cfg : BMSConfig) (command response : List ℕ) :
    ParseOutcome :=
  if response.length < 5 then .err .tooShort
  else if response.getD 0 0 ≠ 0xD2 then .err (.wrongSlave (response.getD 0 0))
  else if response.getD 1 0 ≠ 0x03 then
    (if response.getD 1 0 &&& 0x80 ≠ 0 then
      .err (.modbusException (response.getD 1 0)
        (if 2 < response.length then response.getD 2 0 else 0))
    else .err (.wrongFunc (response.getD 1 0)))
  else
    let data_length := response.getD 2 0
    if response.length < 3 + data_length + 2 then .err .lenShort
    else
      let data_bytes := (response.drop 3).take data_length
      let fields :=
        if 6 ≤ command.length then
          parse_register_data cfg ((command.getD 2 0) <<< 8 ||| command.getD 3 0)
            data_bytes
        else {}
      .ok data_bytes data_length (crcTrailingValid response) fields

/-! ## Rounding and the voltage-based SOC estimator -/

/-- Round-half-to-even on `ℚ` (the idealized semantics of Python `round`). -/
def roundHalfEven (q : ℚ) : ℤ :=
  if q - ⌊q⌋ < 1/2 then ⌊q⌋
  else if 1/2 < q - ⌊q⌋ then ⌊q⌋ + 1
  else if ⌊q⌋ % 2 = 0 then ⌊q⌋ else ⌊q⌋ + 1

/-- Python `round(x, 1)`. -/
def pyRound1 (q : ℚ) : ℚ := (roundHalfEven (q * 10) : ℚ) / 10

/-- `BMSService.estimate_soc`: linear 24.0 V → 0 %, 29.2 V → 100 %,
`round(soc, 1)` in between. -/
def estimate_soc (voltage : ℚ) : ℚ :=
  if voltage ≤ 24.0 then 0
  else if voltage ≥ 29.2 then 100
  else pyRound1 ((voltage - 24.0) / (29.2 - 24.0) * 100)

/-! ## Bulk extraction (`BMSService.extract_from_large_response`) -/

/-- The `data` dict accumulated by `read_bms_data` and its helpers. -/
structure Rec where
  total_voltage : Option ℚ := none
  current : Option ℚ := none
  current_direction : Option Direction := none
  soc : Option ℚ := none
  cells : Option (List ℚ) := none
  temperatures : Option (List ℚ) := none
  temperature : Option ℚ := none
  power : Option ℚ := none
  status : Option String := none
  connection_status : Option String := none
deriving DecidableEq, Repr

/-- Total-voltage step of `extract_from_large_response`
(register 0x28 → byte offset 80; only stored when `raw_v > 0`). -/
def extractVoltage (bs : List ℕ) (st : Rec × Bool) : Rec × Bool :=
  if 0x28 * 2 + 1 < bs.length then
    (if u16at bs (0x28 * 2) > 0 then
      ({ st.1 with total_voltage := some ((u16at bs (0x28 * 2) : ℚ) * 0.1) }, true)
    else st)
  else st

/-- Current step of `extract_from_large_response`
(register 0x29 → byte offset 82; zero-point-30000 convention). -/
def extractCurrent (bs : List ℕ) (st : Rec × Bool) : Rec × Bool :=
  if 0x29 * 2 + 1 < bs.length then
    let raw_i := u16at bs (0x29 * 2)
    if raw_i ≥ 30000 then
      let actual : ℚ := ((raw_i : ℚ) - 30000) * 0.1
      ({ st.1 with
          current := some actual,
          current_direction := some (if actual > 0 then .discharge else .idle) }, true)
    else
      let actual : ℚ := ((30000 : ℚ) - (raw_i : ℚ)) * 0.1
      ({ st.1 with
          current := some (-actual),
          current_direction := some .charge }, true)
  else st

/-- SOC step of `extract_from_large_response` (configurable register;
`(raw * soc_scale) + soc_offset`, accepted only in `[0, 100]`, stored
rounded to one decimal). -/
def extractSoc (cfg : BMSConfig) (bs : List ℕ) (st : Rec × Bool) : Rec × Bool :=
  if cfg.socRegister * 2 + 1 < bs.length then
    let val : ℚ := (u16at bs (cfg.socRegister * 2) : ℚ) * cfg.socScale + cfg.socOffset
    if 0 ≤ val ∧ val ≤ 100 then ({ st.1 with soc := some (pyRound1 val) }, true)
    else st
  else st

/-- Cell loop of `extract_from_large_response`: 8 cells at byte offsets
`0,2,…,14`, keeping `raw > 0` as `raw * 0.001`. -/
def extractCellsList (bs : List ℕ) : List ℚ :=
  (List.range 8).foldr (fun i acc =>
    if i * 2 + 1 < bs.length then
      (if u16at bs (i * 2) > 0 then ((u16at bs (i * 2) : ℚ)) * 0.001 :: acc else acc)
    else acc) []

def extractCells (bs : List ℕ) (st : Rec × Bool) : Rec × Bool :=
  let voltages := extractCellsList bs
  if voltages ≠ [] then ({ st.1 with cells := some voltages }, true) else st

/-- Temperature loop of `extract_from_large_response`: 4 sensors at byte
offsets `64,66,68,70`, `(raw/10.0) − 273.1`, kept in `[-40, 120]`. -/
def extractTempsList (bs : List ℕ) : List ℚ :=
  (List.range 4).foldr (fun i acc =>
    if 0x20 * 2 + i * 2 + 1 < bs.length then
      (let t : ℚ := (u16at bs (0x20 * 2 + i * 2) : ℚ) / 10 - 273.1
       if -40 ≤ t ∧ t ≤ 120 then t :: acc else acc)
    else acc) []

def extractTemps (bs : List ℕ) (st : Rec × Bool) : Rec × Bool :=
  let ts := extractTempsList bs
  if ts ≠ [] then
    ({ st.1 with
        temperatures := some ts,
        temperature := some (ts.sum / (ts.length : ℚ)) }, true)
  else st

/-- `BMSService.extract_from_large_response` on the payload bytes. The
source guards on the hex string (`len(raw_data) < 160` hex characters,
i.e. fewer than 80 payload bytes) and then extracts total voltage, current,
SOC, cells and temperatures in that order; the final register-scan loop
only logs and is omitted. Returns the success flag and the updated dict. -/
def extract_from_large_response (cfg : BMSConfig) (raw_data : List ℕ) (d : Rec) :
    Bool × Rec :=
  if raw_data.length * 2 < 160 then (false, d)
  else
    let st := extractTemps raw_data (extractCells raw_data
      (extractSoc cfg raw_data (extractCurrent raw_data
        (extractVoltage raw_data (d, false)))))
    (st.2, st.1)

/-! ## Poll scheduler (`BMSService.read_bms_data`,
`BMSService.read_individual_registers`, `main.bms_monitoring_task`)

BLE I/O is modelled by a deterministic response oracle: `Env.responses`
gives the notification frames `send_command` collects for a request. -/

structure Env where
  responses : List ℕ → List (List ℕ)

/-- The voltage/current loops of `read_individual_registers`: first non-echo
response whose parse carries the wanted field (`break` on first hit). -/
def firstParsedField {α : Type} (cfg : BMSConfig) (cmd : List ℕ)
    (rs : List (List ℕ)) (get : RegFields → Option α) : Option α :=
  match rs with
  | [] => none
  | r :: rest =>
    if r ≠ cmd then
      match parse_modbus_response cfg cmd r with
      | .ok _ _ _ fields =>
        match get fields with
        | some v => some v
        | none => firstParsedField cfg cmd rest get
      | .err _ => firstParsedField cfg cmd rest get
    else firstParsedField cfg cmd rest get

/-- `response[3:3+response[2]] if len(response) > 3 else b""`. -/
def payloadOf (r : List ℕ) : List ℕ :=
  if 3 < r.length then (r.drop 3).take (r.getD 2 0) else []

/-- The inline temperature decode of `read_individual_registers`
(`for i in range(0, min(len(payload), 8), 2)` with an unguarded
`struct.unpack` on `payload[i:i+2]`): a 1-byte tail raises `struct.error`,
which discards the whole list — hence `Option`. -/
def tempsTry (payload : List ℕ) (is : List ℕ) : Option (List ℚ) :=
  match is with
  | [] => some []
  | i :: rest =>
    if i < min payload.length 8 then
      if i + 1 < payload.length then
        match tempsTry payload rest with
        | some ts =>
          let t : ℚ := (u16at payload i : ℚ) / 10 - 273.1
          some (if -40 ≤ t ∧ t ≤ 120 then t :: ts else ts)
        | none => none
      else none
    else tempsTry payload rest

def indivTempsOf (payload : List ℕ) : Option (List ℚ) :=
  tempsTry payload ((List.range 4).map (· * 2))

/-- One response of the temperature loop of `read_individual_registers`
(no `break`: every response is processed, later successes overwrite). -/
def indivTempsStep (cmd r : List ℕ) (st : Rec × Bool) : Rec × Bool :=
  if r ≠ cmd then
    match indivTempsOf (payloadOf r) with
    | some ts =>
      if ts ≠ [] then
        ({ st.1 with
            temperatures := some ts,
            temperature := some (ts.sum / (ts.length : ℚ)) }, true)
      else st
    | none => st
  else st

/-- One response of the SOC loop of `read_individual_registers`
(`(raw * soc_scale) + soc_offset`, accepted only in `[0,100]`, rounded;
no `break`). -/
def indivSocStep (cfg : BMSConfig) (cmd r : List ℕ) (st : Rec × Bool) :
    Rec × Bool :=
  if r ≠ cmd then
    let payload := payloadOf r
    if 2 ≤ payload.length then
      let val : ℚ := (u16at payload 0 : ℚ) * cfg.socScale + cfg.socOffset
      if 0 ≤ val ∧ val ≤ 100 then ({ st.1 with soc := some (pyRound1 val) }, true)
      else st
    else st
  else st

/-- `BMSService.read_individual_registers`: total voltage, current,
temperatures, SOC, threading the shared `success` flag. -/
def read_individual_registers (cfg : BMSConfig) (env : Env) (d : Rec) :
    Bool × Rec :=
  let cmdV := build_modbus_command 0x0028 1
  let st1 : Rec × Bool :=
    match firstParsedField cfg cmdV (env.responses cmdV) (fun f => f.total_voltage) with
    | some v => ({ d with total_voltage := some v }, true)
    | none => (d, false)
  let cmdC := build_modbus_command 0x0029 1
  let st2 : Rec × Bool :=
    match firstParsedField cfg cmdC (env.responses cmdC)
        (fun f => f.current.map (fun c => (c, f.current_direction))) with
    | some (c, dir) =>
      ({ st1.1 with current := some c, current_direction := dir }, true)
    | none => st1
  let cmdT := build_modbus_command 0x0020 4
  let st3 := (env.responses cmdT).foldl (fun st r => indivTempsStep cmdT r st) st2
  let cmdS := build_modbus_command cfg.socRegister 1
  let st4 := (env.responses cmdS).foldl (fun st r => indivSocStep cfg cmdS r st) st3
  (st4.2, st4.1)

/-- The bulk loop of `read_bms_data`: first non-echo response that parses
without error, has a valid CRC, and from which
`extract_from_large_response` succeeds. -/
def firstBulkExtract (cfg : BMSConfig) (cmd : List ℕ) (rs : List (List ℕ))
    (d : Rec) : Option Rec :=
  match rs with
  | [] => none
  | r :: rest =>
    if r ≠ cmd then
      match parse_modbus_response cfg cmd r with
      | .ok raw _ crc_valid _ =>
        if crc_valid then
          match extract_from_large_response cfg raw d with
          | (true, d') => some d'
          | (false, d') => firstBulkExtract cfg cmd rest d'
        else firstBulkExtract cfg cmd rest d
      | .err _ => firstBulkExtract cfg cmd rest d
    else firstBulkExtract cfg cmd rest d

/-- Scheduler counters (`read_count`, `error_count`) and link flag of
`BMSService`. -/
structure SchedState where
  connected : Bool
  read_count : ℕ
  error_count : ℕ
deriving DecidableEq, Repr

/-- The `if success:` tail of `read_bms_data`: derive power, estimate SOC
when absent, set `status = "normal"`. -/
def finalizeRecord (d : Rec) : Rec :=
  let d1 :=
    match d.total_voltage, d.current with
    | some v, some c => { d with power := some (v * c) }
    | _, _ => d
  let d2 :=
    if d1.soc = none then
      match d1.total_voltage with
      | some v => { d1 with soc := some (estimate_soc v) }
      | none => d1
    else d1
  { d2 with status := some "normal" }

/-- `BMSService.read_bms_data`: bulk strategy first, individual registers on
failure; on success `read_count` increments and the record is returned; on
failure `None` is returned with both counters untouched (the `except`
branch that would increment `error_count` is unreachable in this
exception-free embedding). -/
def read_bms_data (cfg : BMSConfig) (env : Env) (st : SchedState) :
    Option Rec × SchedState :=
  if st.connected = false then (none, st)
  else
    let d0 : Rec := { connection_status := some "connected" }
    let cmd := build_modbus_command 0x0000 0x003E
    match firstBulkExtract cfg cmd (env.responses cmd) d0 with
    | some d => (some (finalizeRecord d), { st with read_count := st.read_count + 1 })
    | none =>
      match read_individual_registers cfg env d0 with
      | (true, d) =>
        (some (finalizeRecord d), { st with read_count := st.read_count + 1 })
      | (false, _) => (none, st)

/-! ## Alert synthesizers -/

/-- One alert dict of `main.check_alerts` /
`bms_mqtt_bridge.check_and_send_alerts` (message and timestamp omitted). -/
structure Alert where
  type : String
  severity : String
  value : ℚ
  threshold : ℚ
  cell : Option ℕ := none
deriving DecidableEq, Repr

/-- Temperature block shared verbatim by `main.check_alerts`
(`ty = "temperature"`) and `bms_mqtt_bridge.check_and_send_alerts`
(`ty = "high_temperature"`): fires above 45, critical above 55, with the
matching threshold. The truthiness guard `if temperature and …` is the
`≠ 0` conjunct. -/
def tempAlertsOf (ty : String) (temperature : Option ℚ) : List Alert :=
  match temperature with
  | some t =>
    if t ≠ 0 ∧ t > 45 then
      (let sev := if t > 55 then "critical" else "warning"
       [{ type := ty, severity := sev, value := t,
          threshold := if sev = "warning" then 45 else 55 }])
    else []
  | none => []

/-- Per-cell loop of `main.check_alerts`: one critical alert per cell
below 3.0 V, carrying the 1-based cell index. -/
def cellAlertsOf (cs : List ℚ) : List Alert :=
  cs.enum.foldr (fun (p : ℕ × ℚ) acc =>
    if p.2 < 3.0 then
      { type := "cell_voltage", severity := "critical", value := p.2,
        threshold := 3.0, cell := some (p.1 + 1) } :: acc
    else acc) []

/-- `main.check_alerts`: total-voltage band (critical < 24.0, critical
> 30.4, nothing in between), per-cell < 3.0, temperature > 45/55. The
Python truthiness guards (`if voltage:`, `if temperature and …`) are the
`≠ 0` conjuncts. -/
def check_alerts (data : Rec) : List Alert :=
  let voltageAlerts : List Alert :=
    match data.total_voltage with
    | some v =>
      if v ≠ 0 then
        (if v < 24.0 then
          [{ type := "voltage", severity := "critical", value := v, threshold := 24.0 }]
        else if v > 30.4 then
          [{ type := "voltage", severity := "critical", value := v, threshold := 30.4 }]
        else [])
      else []
    | none => []
  let cellAlerts : List Alert :=
    cellAlertsOf (match data.cells with | some cs => cs | none => [])
  let tempAlerts : List Alert := tempAlertsOf "temperature" data.temperature
  voltageAlerts ++ cellAlerts ++ tempAlerts

/-- The dict `check_and_send_alerts` receives in the MQTT bridge
(key `"voltage"`, not `"total_voltage"`). -/
structure BridgeData where
  voltage : Option ℚ := none
  cells : List ℚ := []
  temperature : Option ℚ := none

/-- Per-cell loop of `bms_mqtt_bridge.check_and_send_alerts`:
< 3.0 V critical, > 3.8 V warning, 1-based cell index. -/
def bridgeCellAlertsOf (cs : List ℚ) : List Alert :=
  cs.enum.foldr (fun (p : ℕ × ℚ) acc =>
    if p.2 < 3.0 then
      { type := "critical_cell_voltage", severity := "critical", value := p.2,
        threshold := 3.0, cell := some (p.1 + 1) } :: acc
    else if p.2 > 3.8 then
      { type := "high_cell_voltage", severity := "warning", value := p.2,
        threshold := 3.8, cell := some (p.1 + 1) } :: acc
    else acc) []

/-- `bms_mqtt_bridge.check_and_send_alerts`: voltage bands
critical_low_voltage (< 24.0) / low_voltage (< 25.6, warning) /
high_voltage (> 30.4); cells < 3.0 critical, > 3.8 warning;
high_temperature > 45/55. -/
def check_and_send_alerts (data : BridgeData) : List Alert :=
  let voltageAlerts : List Alert :=
    match data.voltage with
    | some v =>
      if v ≠ 0 then
        (if v < 24.0 then
          [{ type := "critical_low_voltage", severity := "critical", value := v,
             threshold := 24.0 }]
        else if v < 25.6 then
          [{ type := "low_voltage", severity := "warning", value := v,
             threshold := 25.6 }]
        else if v > 30.4 then
          [{ type := "high_voltage", severity := "critical", value := v,
             threshold := 30.4 }]
        else [])
      else []
    | none => []
  let cellAlerts : List Alert := bridgeCellAlertsOf data.cells
  let tempAlerts : List Alert := tempAlertsOf "high_temperature" data.temperature
  voltageAlerts ++ cellAlerts ++ tempAlerts

/-- What one pass of `main.bms_monitoring_task` publishes and how it leaves
the scheduler state. -/
structure TickResult where
  record : Option Rec
  alerts : List Alert
  state : SchedState
deriving DecidableEq, Repr

/-- One connected-state iteration of `main.bms_monitoring_task`:
read, and only `if data:` publish the record and its alerts. The
not-connected branch performs BLE connection I/O outside this embedding and
publishes nothing. -/
def monitoring_tick (cfg : BMSConfig) (env : Env) (st : SchedState) :
    TickResult :=
  if st.connected then
    match read_bms_data cfg env st with
    | (some d, st') => { record := some d, alerts := check_alerts d, state := st' }
    | (none, st') => { record := none, alerts := [], state := st' }
  else { record := none, alerts := [], state := st }

/-! ## Statistics snapshot (`BMSService.get_stats`) -/

structure Stats where
  connected : Bool
  read_count : ℕ
  error_count : ℕ
  success_rate : ℚ
deriving DecidableEq, Repr

/-- `BMSService.get_stats`: guarded success-rate percentage. -/
def get_stats (st : SchedState) : Stats :=
  { connected := st.connected
    read_count := st.read_count
    error_count := st.error_count
    success_rate :=
      if st.read_count + st.error_count > 0 then
        ((st.read_count : ℚ) / ((st.read_count : ℚ) + (st.error_count : ℚ))) * 100
      else 0 }

/-! ## Alert store (`DatabaseService.acknowledge_alert`,
`routes.acknowledge_alert`) -/

/-- One row of `battery_alerts`; `id` is the primary key (unique within a
store), other columns are irrelevant to acknowledgment. -/
structure AlertRow where
  id : ℕ
  acknowledged : Bool
deriving DecidableEq, Repr

/-- `DatabaseService.acknowledge_alert`: select by id; if found, set
`acknowledged = True` and report success, else report failure leaving the
store unchanged. -/
def acknowledge_alert (store : List AlertRow) (alert_id : ℕ) :
    Bool × List AlertRow :=
  match store.find? (fun a => a.id == alert_id) with
  | some _ =>
    (true, store.map (fun a =>
      if a.id = alert_id then { a with acknowledged := true } else a))
  | none => (false, store)

inductive AckResponse
  | success (alert_id : ℕ)
  | notFound
  | unavailable
deriving DecidableEq, Repr

/-- `routes.acknowledge_alert`: 503 when the store is down, otherwise 200 on
database success and 404 when the id is unknown. -/
def acknowledge_route (dbConnected : Bool) (store : List AlertRow)
    (alert_id : ℕ) : AckResponse × List AlertRow :=
  if dbConnected then
    match acknowledge_alert store alert_id with
    | (true, s') => (.success alert_id, s')
    | (false, s') => (.notFound, s')
  else (.unavailable, store)

/-! ## CRC bounds and C6 — encode-then-verify round-trip -/

lemma crcShift_lt (k crc : ℕ) (h : crc < 65536) : crcShift k crc < 65536 := by
  induction k generalizing crc with
  | zero => simpa [crcShift] using h
  | succ k ih =>
      rw [crcShift]
      apply ih
      have hdiv : crc >>> 1 < 65536 := by
        rw [Nat.shiftRight_eq_div_pow]
        omega
      split
      · exact Nat.xor_lt_two_pow (n := 16) hdiv (by norm_num)
      · exact hdiv

lemma calculate_modbus_crc16_lt (data : List ℕ) (h : ∀ b ∈ data, b < 256) :
    calculate_modbus_crc16 data < 65536 := by
  unfold calculate_modbus_crc16
  have main : ∀ (l : List ℕ), (∀ b ∈ l, b < 256) → ∀ c, c < 65536 →
      l.foldl (fun crc byte => crcShift 8 (crc ^^^ byte)) c < 65536 := by
    intro l
    induction l with
    | nil => intro _ c hc; simpa using hc
    | cons b t ih =>
        intro hl c hc
        simp only [List.foldl_cons]
        apply ih (fun x hx => hl x (List.mem_cons_of_mem _ hx))
        apply crcShift_lt
        exact Nat.xor_lt_two_pow (n := 16) hc
          (lt_trans (hl b (List.mem_cons_self _ _)) (by norm_num))
  exact main data h 0xFFFF (by norm_num)

lemma lo_hi_recompose (c : ℕ) (h : c < 65536) :
    (c &&& 0xFF) + 256 * ((c >>> 8) &&& 0xFF) = c := by
  have h1 : c &&& 0xFF = c % 256 := by
    have := Nat.and_pow_two_sub_one_eq_mod c 8
    norm_num at this
    exact this
  have h2 : (c >>> 8) &&& 0xFF = (c / 256) % 256 := by
    have hs : c >>> 8 = c / 256 := by
      have := Nat.shiftRight_eq_div_pow c 8
      norm_num at this
      exact this
    have := Nat.and_pow_two_sub_one_eq_mod (c >>> 8) 8
    norm_num at this
    rw [this, hs]
  rw [h1, h2]
  omega

lemma mask_byte_lt (x : ℕ) : x &&& 0xFF < 256 :=
  Nat.and_lt_two_pow (n := 8) x (by norm_num)

/-- `calculate_modbus_crc16` of the 6-byte header of `build_modbus_command`. -/
lemma crc_header_lt (a n : ℕ) :
    calculate_modbus_crc16
      [0xD2, 0x03, (a >>> 8) &&& 0xFF, a &&& 0xFF, (n >>> 8) &&& 0xFF, n &&& 0xFF] < 65536 := by
  apply calculate_modbus_crc16_lt
  intro b hb
  simp only [List.mem_cons, List.not_mem_nil, or_false] at hb
  rcases hb with h | h | h | h | h | h <;> subst h
  · norm_num
  · norm_num
  · exact mask_byte_lt _
  · exact mask_byte_lt _
  · exact mask_byte_lt _
  · exact mask_byte_lt _

/-- C6: for every register address `a ≤ 0xFFFF` and count `n ∈ [1,125]`,
`build_modbus_command` yields an 8-byte frame whose first six bytes are
`[0xD2, 0x03, addr_hi, addr_lo, count_hi, count_lo]`, whose CRC recomputed
over those six bytes equals the appended little-endian CRC word, and whose
trailing CRC therefore verifies — encode-then-verify round-trips. -/
theorem C6_crc_roundtrip (a n : ℕ) (ha : a ≤ 0xFFFF) (hn1 : 1 ≤ n) (hn2 : n ≤ 125) :
    (build_modbus_command a n).length = 8 ∧
    (build_modbus_command a n).take 6
      = [0xD2, 0x03, a / 256, a % 256, n / 256, n % 256] ∧
    calculate_modbus_crc16 ((build_modbus_command a n).take 6)
      = (build_modbus_command a n).getD 6 0
        + 256 * (build_modbus_command a n).getD 7 0 ∧
    crcTrailingValid (build_modbus_command a n) = true := by
  have hhi_a : (a >>> 8) &&& 0xFF = a / 256 := by
    have hs : a >>> 8 = a / 256 := by
      have := Nat.shiftRight_eq_div_pow a 8
      norm_num at this
      exact this
    have := Nat.and_pow_two_sub_one_eq_mod (a >>> 8) 8
    norm_num at this
    rw [this, hs, Nat.mod_eq_of_lt (by omega)]
  have hlo_a : a &&& 0xFF = a % 256 := by
    have := Nat.and_pow_two_sub_one_eq_mod a 8
    norm_num at this
    exact this
  have hhi_n : (n >>> 8) &&& 0xFF = n / 256 := by
    have hs : n >>> 8 = n / 256 := by
      have := Nat.shiftRight_eq_div_pow n 8
      norm_num at this
      exact this
    have := Nat.and_pow_two_sub_one_eq_mod (n >>> 8) 8
    norm_num at this
    rw [this, hs, Nat.mod_eq_of_lt (by omega)]
  have hlo_n : n &&& 0xFF = n % 256 := by
    have := Nat.and_pow_two_sub_one_eq_mod n 8
    norm_num at this
    exact this
  have hcrc := crc_header_lt a n
  set c := calculate_modbus_crc16
    [0xD2, 0x03, (a >>> 8) &&& 0xFF, a &&& 0xFF, (n >>> 8) &&& 0xFF, n &&& 0xFF] with hc
  refine ⟨?_, ?_, ?_, ?_⟩
  · simp [build_modbus_command]
  · simp only [build_modbus_command]
    rw [hhi_a, hlo_a, hhi_n, hlo_n]
    rfl
  · simp only [build_modbus_command, ← hc]
    show c = (c &&& 0xFF) + 256 * ((c >>> 8) &&& 0xFF)
    exact (lo_hi_recompose c hcrc).symm
  · simp only [crcTrailingValid, build_modbus_command, ← hc]
    show ((c &&& 0xFF) + 256 * ((c >>> 8) &&& 0xFF) == c) = true
    rw [beq_iff_eq]
    exact lo_hi_recompose c hcrc

/-- Witness for C6 at the concrete request (total_voltage register, 1 reg). -/
theorem C6_crc_roundtrip_witness :
    (build_modbus_command 0x0028 1).length = 8 ∧
    (build_modbus_command 0x0028 1).take 6
      = [0xD2, 0x03, 0x0028 / 256, 0x0028 % 256, 1 / 256, 1 % 256] ∧
    calculate_modbus_crc16 ((build_modbus_command 0x0028 1).take 6)
      = (build_modbus_command 0x0028 1).getD 6 0
        + 256 * (build_modbus_command 0x0028 1).getD 7 0 ∧
    crcTrailingValid (build_modbus_command 0x0028 1) = true :=
  C6_crc_roundtrip 0x0028 1 (by norm_num) (by norm_num) (by norm_num)

/-- A response environment in which every command is answered by the single
frame `D2 84 01 00 00` — a Modbus exception frame whose trailing CRC word
(0x0000) does not match the CRC of its first three bytes. -/
def envBad : Env := ⟨fun _ => [[0xD2, 0x84, 0x01, 0x00, 0x00]]⟩

/-! ## Alert-kind membership lemmas -/

lemma mem_cellAlertsOf_type (cs : List ℚ) (a : Alert) (h : a ∈ cellAlertsOf cs) :
    a.type = "cell_voltage" := by
  unfold cellAlertsOf at h
  generalize cs.enum = l at h
  induction l with
  | nil => simp at h
  | cons p t ih =>
    simp only [List.foldr_cons] at h
    split_ifs at h
    · rcases List.mem_cons.mp h with rfl | h'
      · rfl
      · exact ih h'
    · exact ih h

lemma mem_bridgeCellAlertsOf_type (cs : List ℚ) (a : Alert)
    (h : a ∈ bridgeCellAlertsOf cs) :
    a.type = "critical_cell_voltage" ∨ a.type = "high_cell_voltage" := by
  unfold bridgeCellAlertsOf at h
  generalize cs.enum = l at h
  induction l with
  | nil => simp at h
  | cons p t ih =>
    simp only [List.foldr_cons] at h
    split_ifs at h
    · rcases List.mem_cons.mp h with rfl | h'
      · exact Or.inl rfl
      · exact ih h'
    · rcases List.mem_cons.mp h with rfl | h'
      · exact Or.inr rfl
      · exact ih h'
    · exact ih h

lemma mem_tempAlertsOf_type (ty : String) (t : Option ℚ) (a : Alert)
    (h : a ∈ tempAlertsOf ty t) : a.type = ty := by
  unfold tempAlertsOf at h
  cases t with
  | none => simp at h
  | some tt =>
    simp only at h
    split_ifs at h <;> simp at h <;> subst h <;> rfl

/-! ## C9 — statistics snapshot -/

/-- C9: `get_stats` is total; `success_rate` is
`read_count / (read_count + error_count) × 100` whenever the counters sum
to a positive value (the rational denominator being nonzero there), and is
exactly 0 when both counters are zero. -/
theorem C9_get_stats_success_rate (st : SchedState) :
    (0 < st.read_count + st.error_count →
      (get_stats st).success_rate
        = ((st.read_count : ℚ) / ((st.read_count : ℚ) + (st.error_count : ℚ))) * 100
      ∧ ((st.read_count : ℚ) + (st.error_count : ℚ)) ≠ 0) ∧
    (st.read_count = 0 → st.error_count = 0 → (get_stats st).success_rate = 0) := by
  constructor
  · intro h
    refine ⟨by simp [get_stats, h], ?_⟩
    have : (0 : ℚ) < (st.read_count : ℚ) + (st.error_count : ℚ) := by
      exact_mod_cast h
    exact ne_of_gt this
  · intro h1 h2
    simp [get_stats, h1, h2]

/-- Witness for C9 with counters (3, 1) and (0, 0). -/
theorem C9_get_stats_witness :
    (get_stats ⟨true, 3, 1⟩).success_rate = ((3 : ℚ) / ((3 : ℚ) + (1 : ℚ))) * 100 ∧
    (get_stats ⟨false, 0, 0⟩).success_rate = 0 :=
  ⟨((C9_get_stats_success_rate ⟨true, 3, 1⟩).1 (by norm_num)).1,
   (C9_get_stats_success_rate ⟨false, 0, 0⟩).2 rfl rfl⟩

/-! ## C8 — acknowledge idempotence -/

/-- C8: acknowledging an existing alert id succeeds and marks it
acknowledged; a second acknowledge of the same id succeeds again and is a
no-op on the store; every row keeps its id and an acknowledged row never
becomes unacknowledged; an unknown id yields 404 with the store
unmodified. -/
theorem C8_acknowledge_idempotent (store : List AlertRow) (alert_id : ℕ) :
    ((∃ a ∈ store, a.id = alert_id) →
      (acknowledge_alert store alert_id).1 = true ∧
      (∀ b ∈ (acknowledge_alert store alert_id).2, b.id = alert_id →
        b.acknowledged = true) ∧
      acknowledge_alert (acknowledge_alert store alert_id).2 alert_id
        = (true, (acknowledge_alert store alert_id).2) ∧
      acknowledge_route true store alert_id
        = (.success alert_id, (acknowledge_alert store alert_id).2)) ∧
    (∀ (i : ℕ) (a : AlertRow), store[i]? = some a →
      ∃ b, (acknowledge_alert store alert_id).2[i]? = some b ∧
        b.id = a.id ∧ (a.acknowledged = true → b.acknowledged = true)) ∧
    ((∀ a ∈ store, a.id ≠ alert_id) →
      acknowledge_alert store alert_id = (false, store) ∧
      acknowledge_route true store alert_id = (.notFound, store)) := by
  set f : AlertRow → AlertRow := fun a =>
    if a.id = alert_id then { a with acknowledged := true } else a with hf
  refine ⟨?_, ?_, ?_⟩
  · rintro ⟨w, hw, hwid⟩
    have h1 : (store.find? (fun a => a.id == alert_id)).isSome := by
      rw [List.find?_isSome]
      exact ⟨w, hw, by simpa using hwid⟩
    obtain ⟨w0, hw0⟩ := Option.isSome_iff_exists.mp h1
    have hack : acknowledge_alert store alert_id = (true, store.map f) := by
      unfold acknowledge_alert
      rw [hw0]
    have h2 : ((store.map f).find? (fun a => a.id == alert_id)).isSome := by
      rw [List.find?_isSome]
      refine ⟨f w, List.mem_map_of_mem f hw, ?_⟩
      simp [hf, hwid]
    obtain ⟨w1, hw1⟩ := Option.isSome_iff_exists.mp h2
    have hack2 : acknowledge_alert (store.map f) alert_id
        = (true, (store.map f).map f) := by
      unfold acknowledge_alert
      rw [hw1]
    refine ⟨by rw [hack], ?_, ?_, ?_⟩
    · intro b hb hbid
      rw [hack] at hb
      obtain ⟨a, ha, rfl⟩ := List.mem_map.mp hb
      by_cases hida : a.id = alert_id
      · simp [hf, hida]
      · exfalso
        simp [hf, hida] at hbid
    · rw [hack, hack2, List.map_map]
      have : store.map (f ∘ f) = store.map f := by
        apply List.map_congr_left
        intro a _
        show f (f a) = f a
        by_cases hida : a.id = alert_id <;> simp [hf, hida]
      rw [this]
    · simp only [acknowledge_route, if_pos trivial, hack]
  · intro i a hia
    unfold acknowledge_alert
    cases hfind : store.find? (fun x => x.id == alert_id) with
    | none => exact ⟨a, hia, rfl, fun h => h⟩
    | some w =>
      refine ⟨f a, ?_, ?_, ?_⟩
      · rw [List.getElem?_map, hia]
        rfl
      · by_cases hida : a.id = alert_id <;> simp [hf, hida]
      · intro hacka
        by_cases hida : a.id = alert_id <;> simp [hf, hida, hacka]
  · intro hall
    have hfind : store.find? (fun a => a.id == alert_id) = none := by
      rw [List.find?_eq_none]
      intro x hx
      simpa using hall x hx
    have hack : acknowledge_alert store alert_id = (false, store) := by
      unfold acknowledge_alert
      rw [hfind]
    exact ⟨hack, by simp [acknowledge_route, hack]⟩

/-- Witness for C8 on the store `[{id 1, unacknowledged}, {id 2, acknowledged}]`
with existing id 1 and unknown id 9. -/
theorem C8_acknowledge_witness :
    ((acknowledge_alert [⟨1, false⟩, ⟨2, true⟩] 1).1 = true ∧
      acknowledge_alert (acknowledge_alert [⟨1, false⟩, ⟨2, true⟩] 1).2 1
        = (true, (acknowledge_alert [⟨1, false⟩, ⟨2, true⟩] 1).2)) ∧
    acknowledge_route true [⟨1, false⟩, ⟨2, true⟩] 9
      = (.notFound, [⟨1, false⟩, ⟨2, true⟩]) :=
  ⟨⟨((C8_acknowledge_idempotent [⟨1, false⟩, ⟨2, true⟩] 1).1
      ⟨⟨1, false⟩, by simp, rfl⟩).1,
    ((C8_acknowledge_idempotent [⟨1, false⟩, ⟨2, true⟩] 1).1
      ⟨⟨1, false⟩, by simp, rfl⟩).2.2.1⟩,
   ((C8_acknowledge_idempotent [⟨1, false⟩, ⟨2, true⟩] 9).2.2
      (by intro a ha; fin_cases ha <;> simp)).2⟩

/-! ## C3 — low-voltage warning band -/

/-- C3 counterexample: a record with total voltage 25.0 V lies in the band
`24.0 ≤ V < 25.6`, yet the scheduler's alert synthesizer `check_alerts`
emits no alert at all — in particular no warning-severity low_voltage
alert. -/
theorem C3_counterexample :
    ((24 : ℚ) ≤ 25 ∧ (25 : ℚ) < 25.6) ∧
    check_alerts { total_voltage := some 25 } = [] := by
  constructor
  · norm_num
  · with_unfolding_all decide

/-- C3 amended: the warning-severity low_voltage rule for
`24.0 ≤ total_voltage < 25.6` (with no critical_low_voltage alert) holds in
the MQTT bridge's `check_and_send_alerts`; the scheduler's `check_alerts`
emits no voltage alert at all in that band. -/
theorem C3_low_voltage_amended (v : ℚ) (h1 : 24 ≤ v) (h2 : v < 25.6) :
    (∀ (cs : List ℚ) (t : Option ℚ),
      (∃ a ∈ check_and_send_alerts { voltage := some v, cells := cs, temperature := t },
        a.type = "low_voltage" ∧ a.severity = "warning" ∧ a.value = v ∧
          a.threshold = 25.6) ∧
      (∀ a ∈ check_and_send_alerts { voltage := some v, cells := cs, temperature := t },
        a.type ≠ "critical_low_voltage")) ∧
    (∀ (d : Rec), d.total_voltage = some v →
      ∀ a ∈ check_alerts d, a.type ≠ "voltage") := by
  have hv0 : v ≠ 0 := by
    have : (0 : ℚ) < v := by linarith
    exact ne_of_gt this
  have hnlt : ¬ v < 24.0 := by
    rw [show (24.0 : ℚ) = 24 by norm_num]
    exact not_lt.mpr h1
  constructor
  · intro cs t
    have hshape : check_and_send_alerts { voltage := some v, cells := cs, temperature := t }
        = { type := "low_voltage", severity := "warning", value := v,
            threshold := 25.6 } :: (bridgeCellAlertsOf cs ++ tempAlertsOf "high_temperature" t) := by
      simp only [check_and_send_alerts]
      rw [if_pos hv0, if_neg hnlt, if_pos h2]
      rfl
    constructor
    · exact ⟨_, by rw [hshape]; exact List.mem_cons_self _ _, rfl, rfl, rfl, rfl⟩
    · intro a ha
      rw [hshape] at ha
      rcases List.mem_cons.mp ha with rfl | ha'
      · simp
      · rcases List.mem_append.mp ha' with hcell | htemp
        · rcases mem_bridgeCellAlertsOf_type cs a hcell with h | h <;> simp [h]
        · simp [mem_tempAlertsOf_type _ _ _ htemp]
  · intro d hd a ha
    have hngt : ¬ v > 30.4 := by
      intro hgt
      linarith
    have hshape : check_alerts d
        = cellAlertsOf (match d.cells with | some cs => cs | none => [])
            ++ tempAlertsOf "temperature" d.temperature := by
      simp only [check_alerts, hd]
      rw [if_pos hv0, if_neg hnlt, if_neg hngt]
      rfl
    rw [hshape] at ha
    rcases List.mem_append.mp ha with hcell | htemp
    · simp [mem_cellAlertsOf_type _ _ hcell]
    · simp [mem_tempAlertsOf_type _ _ _ htemp]

/-- Witness for C3 amended at 25.0 V. -/
theorem C3_low_voltage_amended_witness :
    (∃ a ∈ check_and_send_alerts { voltage := some 25, cells := [], temperature := none },
      a.type = "low_voltage" ∧ a.severity = "warning" ∧ a.value = 25 ∧
        a.threshold = 25.6) ∧
    (∀ a ∈ check_alerts { total_voltage := some 25 }, a.type ≠ "voltage") :=
  ⟨((C3_low_voltage_amended 25 (by norm_num) (by norm_num)).1 [] none).1,
   (C3_low_voltage_amended 25 (by norm_num) (by norm_num)).2
     { total_voltage := some 25 } rfl⟩

/-! ## C4 counterexample — SOC in the generic per-register parser -/

/-- C4 counterexample: with the default configuration
(`soc_register = 0x002C`, `soc_scale = 0.1`, `soc_offset = 0`), the
per-register parser `parse_register_data` decodes the SOC payload
`[0x07, 0xD0]` (u16 = 2000) to 200.0 and stores it even though 200 exceeds
the claimed acceptance bound 100 — it applies neither the configured scale
and offset nor the `[0, 100]` acceptance test. -/
theorem C4_counterexample :
    (parse_register_data defaultConfig 0x002C [0x07, 0xD0]).soc = some 200 ∧
    ¬ ((200 : ℚ) ≤ 100) := by
  constructor
  · with_unfolding_all decide
  · norm_num

/-! ## C5 — voltage-based SOC estimator -/

lemma floor_le_roundHalfEven (q : ℚ) : ⌊q⌋ ≤ roundHalfEven q := by
  unfold roundHalfEven
  split_ifs <;> omega

lemma roundHalfEven_le_floor_add_one (q : ℚ) : roundHalfEven q ≤ ⌊q⌋ + 1 := by
  unfold roundHalfEven
  split_ifs <;> omega

lemma roundHalfEven_le_add_half (q : ℚ) : (roundHalfEven q : ℚ) ≤ q + 1/2 := by
  have hfl : (⌊q⌋ : ℚ) ≤ q := Int.floor_le q
  have hfu : q < ⌊q⌋ + 1 := Int.lt_floor_add_one q
  unfold roundHalfEven
  split_ifs <;> push_cast <;> linarith

lemma sub_half_le_roundHalfEven (q : ℚ) : q - 1/2 ≤ (roundHalfEven q : ℚ) := by
  have hfl : (⌊q⌋ : ℚ) ≤ q := Int.floor_le q
  have hfu : q < ⌊q⌋ + 1 := Int.lt_floor_add_one q
  unfold roundHalfEven
  split_ifs <;> push_cast <;> linarith

lemma roundHalfEven_mono {a b : ℚ} (h : a ≤ b) :
    roundHalfEven a ≤ roundHalfEven b := by
  by_cases hfe : ⌊a⌋ = ⌊b⌋
  · have hab : a - (⌊b⌋ : ℚ) ≤ b - (⌊b⌋ : ℚ) := by linarith
    unfold roundHalfEven
    rw [hfe]
    split_ifs <;> first | omega | linarith
  · have hlt : ⌊a⌋ < ⌊b⌋ := lt_of_le_of_ne (Int.floor_mono h) hfe
    have h1 := roundHalfEven_le_floor_add_one a
    have h2 := floor_le_roundHalfEven b
    omega

lemma pyRound1_mono {a b : ℚ} (h : a ≤ b) : pyRound1 a ≤ pyRound1 b := by
  unfold pyRound1
  have h10 : a * 10 ≤ b * 10 := by linarith
  have hc : ((roundHalfEven (a * 10) : ℤ) : ℚ) ≤ ((roundHalfEven (b * 10) : ℤ) : ℚ) := by
    exact_mod_cast roundHalfEven_mono h10
  linarith

lemma pyRound1_nonneg {q : ℚ} (h : 0 ≤ q) : 0 ≤ pyRound1 q := by
  unfold pyRound1
  have h0 : (0 : ℤ) ≤ ⌊q * 10⌋ := Int.floor_nonneg.mpr (by linarith)
  have h1 : (0 : ℤ) ≤ roundHalfEven (q * 10) :=
    le_trans h0 (floor_le_roundHalfEven _)
  have h2 : (0 : ℚ) ≤ ((roundHalfEven (q * 10) : ℤ) : ℚ) := by exact_mod_cast h1
  linarith

lemma pyRound1_le_100 {q : ℚ} (h : q < 100) : pyRound1 q ≤ 100 := by
  unfold pyRound1
  have h1 : ((roundHalfEven (q * 10) : ℤ) : ℚ) ≤ q * 10 + 1/2 :=
    roundHalfEven_le_add_half _
  have h2 : ((roundHalfEven (q * 10) : ℤ) : ℚ) < 1001 := by linarith
  have h3 : roundHalfEven (q * 10) < 1001 := by exact_mod_cast h2
  have h4 : roundHalfEven (q * 10) ≤ 1000 := by omega
  have h5 : ((roundHalfEven (q * 10) : ℤ) : ℚ) ≤ 1000 := by exact_mod_cast h4
  linarith

lemma estimate_soc_low {x : ℚ} (hx : x ≤ 24.0) : estimate_soc x = 0 := by
  simp [estimate_soc, hx]

lemma estimate_soc_high {x : ℚ} (hx : 29.2 ≤ x) : estimate_soc x = 100 := by
  unfold estimate_soc
  rw [if_neg (by intro hle; have h := le_trans hx hle; norm_num at h),
    if_pos hx]

lemma estimate_soc_mid {x : ℚ} (h1 : 24.0 < x) (h2 : x < 29.2) :
    estimate_soc x = pyRound1 ((x - 24.0) / (29.2 - 24.0) * 100) := by
  unfold estimate_soc
  rw [if_neg (not_le.mpr h1), if_neg (not_le.mpr h2)]

lemma soc_linear_form (x : ℚ) :
    (x - 24.0) / (29.2 - 24.0) * 100 = (x - 24) * (250 / 13) := by
  norm_num
  ring

lemma estimate_soc_bounds (x : ℚ) : 0 ≤ estimate_soc x ∧ estimate_soc x ≤ 100 := by
  by_cases hx1 : x ≤ 24.0
  · rw [estimate_soc_low hx1]
    norm_num
  · by_cases hx2 : 29.2 ≤ x
    · rw [estimate_soc_high hx2]
      norm_num
    · have h1 : 24.0 < x := not_le.mp hx1
      have h2 : x < 29.2 := not_le.mp hx2
      rw [estimate_soc_mid h1 h2, soc_linear_form x]
      have h1' : (24 : ℚ) < x := by exact_mod_cast (by norm_num at h1 ⊢; exact h1 : (24:ℚ) < x)
      constructor
      · exact pyRound1_nonneg (by nlinarith)
      · exact pyRound1_le_100 (by nlinarith [h2])

/-- C5: `estimate_soc` is a total function of voltage alone, monotone
non-decreasing, exactly 0 up to 24.0 V, exactly 100 from 29.2 V, equal to
`(V − 24.0) / (29.2 − 24.0) × 100` rounded to one decimal in between, with
all outputs in `[0, 100]`. -/
theorem C5_estimate_soc_properties (v w : ℚ) (hvw : v ≤ w) :
    estimate_soc v ≤ estimate_soc w ∧
    (v ≤ 24.0 → estimate_soc v = 0) ∧
    (29.2 ≤ v → estimate_soc v = 100) ∧
    (24.0 < v → v < 29.2 →
      estimate_soc v = pyRound1 ((v - 24.0) / (29.2 - 24.0) * 100)) ∧
    0 ≤ estimate_soc v ∧ estimate_soc v ≤ 100 := by
  refine ⟨?_, fun h => estimate_soc_low h, fun h => estimate_soc_high h,
    fun h1 h2 => estimate_soc_mid h1 h2,
    (estimate_soc_bounds v).1, (estimate_soc_bounds v).2⟩
  by_cases hv1 : v ≤ 24.0
  · rw [estimate_soc_low hv1]
    exact (estimate_soc_bounds w).1
  · have hv1' : 24.0 < v := not_le.mp hv1
    by_cases hv2 : 29.2 ≤ v
    · rw [estimate_soc_high hv2, estimate_soc_high (le_trans hv2 hvw)]
    · have hv2' : v < 29.2 := not_le.mp hv2
      by_cases hw2 : 29.2 ≤ w
      · rw [estimate_soc_high hw2]
        exact (estimate_soc_bounds v).2
      · have hw2' : w < 29.2 := not_le.mp hw2
        have hw1 : 24.0 < w := lt_of_lt_of_le hv1' hvw
        rw [estimate_soc_mid hv1' hv2', estimate_soc_mid hw1 hw2',
          soc_linear_form v, soc_linear_form w]
        exact pyRound1_mono (by nlinarith)

/-- Witness for C5 at 26.5 V ≤ 27.0 V. -/
theorem C5_estimate_soc_witness :
    estimate_soc 26.5 ≤ estimate_soc 27 ∧
    ((26.5 : ℚ) ≤ 24.0 → estimate_soc 26.5 = 0) ∧
    ((29.2 : ℚ) ≤ 26.5 → estimate_soc 26.5 = 100) ∧
    ((24.0 : ℚ) < 26.5 → (26.5 : ℚ) < 29.2 →
      estimate_soc 26.5 = pyRound1 (((26.5 : ℚ) - 24.0) / (29.2 - 24.0) * 100)) ∧
    0 ≤ estimate_soc 26.5 ∧ estimate_soc 26.5 ≤ 100 :=
  C5_estimate_soc_properties 26.5 27 (by norm_num)

/-! ## Field-preservation lemmas for the bulk-extraction steps -/

lemma extractVoltage_other (bs : List ℕ) (st : Rec × Bool) :
    (extractVoltage bs st).1.current = st.1.current ∧
    (extractVoltage bs st).1.current_direction = st.1.current_direction ∧
    (extractVoltage bs st).1.soc = st.1.soc ∧
    (extractVoltage bs st).1.cells = st.1.cells ∧
    (extractVoltage bs st).1.temperatures = st.1.temperatures := by
  simp only [extractVoltage]
  split_ifs <;> simp

lemma extractVoltage_skip (bs : List ℕ) (st : Rec × Bool)
    (h : ¬ 0x28 * 2 + 1 < bs.length) :
    (extractVoltage bs st).1.total_voltage = st.1.total_voltage := by
  simp only [extractVoltage]
  rw [if_neg h]

lemma extractCurrent_other (bs : List ℕ) (st : Rec × Bool) :
    (extractCurrent bs st).1.total_voltage = st.1.total_voltage ∧
    (extractCurrent bs st).1.soc = st.1.soc ∧
    (extractCurrent bs st).1.cells = st.1.cells ∧
    (extractCurrent bs st).1.temperatures = st.1.temperatures := by
  simp only [extractCurrent]
  split_ifs <;> simp

lemma extractCurrent_skip (bs : List ℕ) (st : Rec × Bool)
    (h : ¬ 0x29 * 2 + 1 < bs.length) :
    (extractCurrent bs st).1.current = st.1.current ∧
    (extractCurrent bs st).1.current_direction = st.1.current_direction := by
  simp only [extractCurrent]
  rw [if_neg h]
  exact ⟨rfl, rfl⟩

lemma extractCurrent_set (bs : List ℕ) (st : Rec × Bool)
    (h : 0x29 * 2 + 1 < bs.length) :
    (extractCurrent bs st).1.current
      = (if 30000 ≤ u16at bs (0x29 * 2) then
          some (((u16at bs (0x29 * 2) : ℚ) - 30000) * 0.1)
        else some (-(((30000 : ℚ) - (u16at bs (0x29 * 2) : ℚ)) * 0.1))) ∧
    (extractCurrent bs st).1.current_direction
      = (if 30000 ≤ u16at bs (0x29 * 2) then
          some (if ((u16at bs (0x29 * 2) : ℚ) - 30000) * 0.1 > 0 then
            Direction.discharge else Direction.idle)
        else some Direction.charge) := by
  simp only [extractCurrent]
  rw [if_pos h]
  by_cases hr : 30000 ≤ u16at bs (0x29 * 2)
  · rw [if_pos hr, if_pos hr, if_pos hr]
    exact ⟨rfl, rfl⟩
  · rw [if_neg hr, if_neg hr, if_neg hr]
    exact ⟨rfl, rfl⟩

lemma extractSoc_other (cfg : BMSConfig) (bs : List ℕ) (st : Rec × Bool) :
    (extractSoc cfg bs st).1.total_voltage = st.1.total_voltage ∧
    (extractSoc cfg bs st).1.current = st.1.current ∧
    (extractSoc cfg bs st).1.current_direction = st.1.current_direction ∧
    (extractSoc cfg bs st).1.cells = st.1.cells ∧
    (extractSoc cfg bs st).1.temperatures = st.1.temperatures := by
  simp only [extractSoc]
  split_ifs <;> simp

lemma extractSoc_skip (cfg : BMSConfig) (bs : List ℕ) (st : Rec × Bool)
    (h : ¬ cfg.socRegister * 2 + 1 < bs.length) :
    (extractSoc cfg bs st).1.soc = st.1.soc := by
  simp only [extractSoc]
  rw [if_neg h]

lemma extractSoc_set (cfg : BMSConfig) (bs : List ℕ) (st : Rec × Bool)
    (h : cfg.socRegister * 2 + 1 < bs.length) :
    (extractSoc cfg bs st).1.soc
      = (if 0 ≤ (u16at bs (cfg.socRegister * 2) : ℚ) * cfg.socScale + cfg.socOffset ∧
            (u16at bs (cfg.socRegister * 2) : ℚ) * cfg.socScale + cfg.socOffset ≤ 100
        then some (pyRound1
          ((u16at bs (cfg.socRegister * 2) : ℚ) * cfg.socScale + cfg.socOffset))
        else st.1.soc) := by
  simp only [extractSoc]
  rw [if_pos h]
  split_ifs with hin
  · rfl
  · rfl

lemma extractCells_other (bs : List ℕ) (st : Rec × Bool) :
    (extractCells bs st).1.total_voltage = st.1.total_voltage ∧
    (extractCells bs st).1.current = st.1.current ∧
    (extractCells bs st).1.current_direction = st.1.current_direction ∧
    (extractCells bs st).1.soc = st.1.soc ∧
    (extractCells bs st).1.temperatures = st.1.temperatures := by
  simp only [extractCells]
  split_ifs <;> simp

lemma extractTemps_other (bs : List ℕ) (st : Rec × Bool) :
    (extractTemps bs st).1.total_voltage = st.1.total_voltage ∧
    (extractTemps bs st).1.current = st.1.current ∧
    (extractTemps bs st).1.current_direction = st.1.current_direction ∧
    (extractTemps bs st).1.soc = st.1.soc ∧
    (extractTemps bs st).1.cells = st.1.cells := by
  simp only [extractTemps]
  split_ifs <;> simp

/-! ## C1 — current decoding -/

lemma u16at_pair (raw : ℕ) : u16at [raw / 256, raw % 256] 0 = raw := by
  unfold u16at u16be
  simp [List.getD]
  omega

/-- `parse_register_data` on the current register. -/
lemma parse_current (cfg : BMSConfig) (raw : ℕ) :
    parse_register_data cfg 0x0029 [raw / 256, raw % 256]
      = (if 30000 ≤ raw then
          { current := some (((raw : ℚ) - 30000) * 0.1),
            current_direction := some (if ((raw : ℚ) - 30000) * 0.1 > 0 then
              Direction.discharge else Direction.idle) }
        else
          { current := some (-(((30000 : ℚ) - (raw : ℚ)) * 0.1)),
            current_direction := some Direction.charge }) := by
  simp only [parse_register_data]
  rw [if_neg (by simp), if_pos (by simp), u16at_pair]

/-- The bulk extraction result on the current field. -/
lemma extract_current_field (cfg : BMSConfig) (bs : List ℕ) (d : Rec)
    (h : 0x29 * 2 + 1 < bs.length) :
    (extract_from_large_response cfg bs d).2.current
      = (if 30000 ≤ u16at bs (0x29 * 2) then
          some (((u16at bs (0x29 * 2) : ℚ) - 30000) * 0.1)
        else some (-(((30000 : ℚ) - (u16at bs (0x29 * 2) : ℚ)) * 0.1))) ∧
    (extract_from_large_response cfg bs d).2.current_direction
      = (if 30000 ≤ u16at bs (0x29 * 2) then
          some (if ((u16at bs (0x29 * 2) : ℚ) - 30000) * 0.1 > 0 then
            Direction.discharge else Direction.idle)
        else some Direction.charge) := by
  have hguard : ¬ (bs.length * 2 < 160) := by omega
  simp only [extract_from_large_response]
  rw [if_neg hguard]
  have hT := extractTemps_other bs (extractCells bs (extractSoc cfg bs
    (extractCurrent bs (extractVoltage bs (d, false)))))
  have hC := extractCells_other bs (extractSoc cfg bs
    (extractCurrent bs (extractVoltage bs (d, false))))
  have hS := extractSoc_other cfg bs (extractCurrent bs (extractVoltage bs (d, false)))
  have hset := extractCurrent_set bs (extractVoltage bs (d, false)) h
  exact ⟨by rw [hT.2.1, hC.2.1, hS.2.1, hset.1],
    by rw [hT.2.2.1, hC.2.2.1, hS.2.2.1, hset.2]⟩

/-- C1: decoding the current register — in the per-register path and the
bulk path alike — yields `(raw − 30000) × 0.1` A (discharging if positive,
else idle) when `raw ≥ 30000` and `−(30000 − raw) × 0.1` A (charging) when
`raw < 30000`; the sign of the decoded current is exactly `raw < 30000`. -/
theorem C1_current_decoding (cfg : BMSConfig) (raw : ℕ) (_hraw : raw < 65536) :
    (30000 ≤ raw →
      (parse_register_data cfg 0x0029 [raw / 256, raw % 256]).current
          = some (((raw : ℚ) - 30000) * 0.1) ∧
      (parse_register_data cfg 0x0029 [raw / 256, raw % 256]).current_direction
          = some (if ((raw : ℚ) - 30000) * 0.1 > 0 then Direction.discharge
              else Direction.idle)) ∧
    (raw < 30000 →
      (parse_register_data cfg 0x0029 [raw / 256, raw % 256]).current
          = some (-(((30000 : ℚ) - (raw : ℚ)) * 0.1)) ∧
      (parse_register_data cfg 0x0029 [raw / 256, raw % 256]).current_direction
          = some Direction.charge) ∧
    (∀ c : ℚ, (parse_register_data cfg 0x0029 [raw / 256, raw % 256]).current = some c →
      (c < 0 ↔ raw < 30000)) ∧
    (∀ (bs : List ℕ) (d : Rec), 0x29 * 2 + 1 < bs.length →
      u16at bs (0x29 * 2) = raw →
      (extract_from_large_response cfg bs d).2.current
          = (parse_register_data cfg 0x0029 [raw / 256, raw % 256]).current ∧
      (extract_from_large_response cfg bs d).2.current_direction
          = (parse_register_data cfg 0x0029 [raw / 256, raw % 256]).current_direction) := by
  rw [parse_current cfg raw]
  refine ⟨?_, ?_, ?_, ?_⟩
  · intro hr
    rw [if_pos hr]
    exact ⟨rfl, rfl⟩
  · intro hr
    rw [if_neg (not_le.mpr hr)]
    exact ⟨rfl, rfl⟩
  · intro c hc
    by_cases hr : 30000 ≤ raw
    · rw [if_pos hr] at hc
      have hcv : c = ((raw : ℚ) - 30000) * 0.1 := by
        have := hc
        simp at this
        exact this.symm
      have hge : (30000 : ℚ) ≤ (raw : ℚ) := by exact_mod_cast hr
      have hnonneg : 0 ≤ ((raw : ℚ) - 30000) * 0.1 := by
        have h01 : (0 : ℚ) ≤ 0.1 := by norm_num
        exact mul_nonneg (by linarith) h01
      constructor
      · intro hneg
        exfalso
        rw [hcv] at hneg
        linarith
      · intro hlt
        exact absurd hlt (Nat.not_lt.mpr hr)
    · rw [if_neg hr] at hc
      have hlt : raw < 30000 := Nat.not_le.mp hr
      have hcv : c = -(((30000 : ℚ) - (raw : ℚ)) * 0.1) := by
        have := hc
        simp at this
        exact this.symm
      have hle : (raw : ℚ) ≤ 29999 := by exact_mod_cast Nat.le_sub_one_of_lt hlt
      constructor
      · intro _
        exact hlt
      · intro _
        rw [hcv]
        have : (0 : ℚ) < ((30000 : ℚ) - (raw : ℚ)) * 0.1 := by
          have h01 : (0 : ℚ) < 0.1 := by norm_num
          exact mul_pos (by linarith) h01
        linarith
  · intro bs d hlen hval
    have hfield := extract_current_field cfg bs d hlen
    rw [hval] at hfield
    by_cases hr : 30000 ≤ raw
    · rw [if_pos hr] at hfield ⊢
      rw [if_pos hr] at hfield
      exact hfield
    · rw [if_neg hr] at hfield ⊢
      rw [if_neg hr] at hfield
      exact hfield

/-- Witness for C1 at raw = 29900 (−10.0 A, charging), with the bulk payload
`84 bytes, bytes 82/83 = 0x74 0xCC`. -/
theorem C1_current_decoding_witness :
    (parse_register_data defaultConfig 0x0029 [29900 / 256, 29900 % 256]).current
      = some (-(((30000 : ℚ) - ((29900 : ℕ) : ℚ)) * 0.1)) ∧
    (parse_register_data defaultConfig 0x0029 [29900 / 256, 29900 % 256]).current_direction
      = some Direction.charge ∧
    (extract_from_large_response defaultConfig (List.replicate 82 0 ++ [0x74, 0xCC])
        { }).2.current
      = (parse_register_data defaultConfig 0x0029 [29900 / 256, 29900 % 256]).current :=
  ⟨((C1_current_decoding defaultConfig 29900 (by norm_num)).2.1 (by norm_num)).1,
   ((C1_current_decoding defaultConfig 29900 (by norm_num)).2.1 (by norm_num)).2,
   ((C1_current_decoding defaultConfig 29900 (by norm_num)).2.2.2
     (List.replicate 82 0 ++ [0x74, 0xCC]) { } (by decide) (by decide)).1⟩

/-! ## C4 amended — SOC decode paths -/

/-- The bulk extraction result on the SOC field. -/
lemma extract_soc_field (cfg : BMSConfig) (bs : List ℕ) (d : Rec)
    (hpos : cfg.socRegister * 2 + 1 < bs.length) (hlen : 160 ≤ bs.length * 2) :
    (extract_from_large_response cfg bs d).2.soc
      = (if 0 ≤ (u16at bs (cfg.socRegister * 2) : ℚ) * cfg.socScale + cfg.socOffset ∧
            (u16at bs (cfg.socRegister * 2) : ℚ) * cfg.socScale + cfg.socOffset ≤ 100
        then some (pyRound1
          ((u16at bs (cfg.socRegister * 2) : ℚ) * cfg.socScale + cfg.socOffset))
        else d.soc) := by
  have hguard : ¬ (bs.length * 2 < 160) := by omega
  simp only [extract_from_large_response]
  rw [if_neg hguard]
  have hT := extractTemps_other bs (extractCells bs (extractSoc cfg bs
    (extractCurrent bs (extractVoltage bs (d, false)))))
  have hC := extractCells_other bs (extractSoc cfg bs
    (extractCurrent bs (extractVoltage bs (d, false))))
  have hset := extractSoc_set cfg bs (extractCurrent bs (extractVoltage bs (d, false))) hpos
  have hcur := extractCurrent_other bs (extractVoltage bs (d, false))
  have hvol := extractVoltage_other bs (d, false)
  rw [hT.2.2.2.1, hC.2.2.2.1, hset, hcur.2.1, hvol.2.2.1]

/-- C4 amended: the bulk-extraction path and the dedicated per-register SOC
read both decode `(u16 × soc_scale) + soc_offset`, store it rounded to one
decimal, and only when it lies within [0, 100]; the generic register parser
`parse_register_data`, by contrast, stores `u16 × 0.1` unconditionally —
with neither the configured scale and offset nor the range test. -/
theorem C4_soc_decode_amended (cfg : BMSConfig) :
    (∀ (bs : List ℕ) (d : Rec), cfg.socRegister * 2 + 1 < bs.length →
      160 ≤ bs.length * 2 →
      ((0 ≤ (u16at bs (cfg.socRegister * 2) : ℚ) * cfg.socScale + cfg.socOffset ∧
          (u16at bs (cfg.socRegister * 2) : ℚ) * cfg.socScale + cfg.socOffset ≤ 100 →
        (extract_from_large_response cfg bs d).2.soc
          = some (pyRound1
              ((u16at bs (cfg.socRegister * 2) : ℚ) * cfg.socScale + cfg.socOffset))) ∧
      (¬ (0 ≤ (u16at bs (cfg.socRegister * 2) : ℚ) * cfg.socScale + cfg.socOffset ∧
          (u16at bs (cfg.socRegister * 2) : ℚ) * cfg.socScale + cfg.socOffset ≤ 100) →
        (extract_from_large_response cfg bs d).2.soc = d.soc))) ∧
    (∀ (cmd r : List ℕ) (st : Rec × Bool), r ≠ cmd → 2 ≤ (payloadOf r).length →
      ((0 ≤ (u16at (payloadOf r) 0 : ℚ) * cfg.socScale + cfg.socOffset ∧
          (u16at (payloadOf r) 0 : ℚ) * cfg.socScale + cfg.socOffset ≤ 100 →
        (indivSocStep cfg cmd r st).1.soc
          = some (pyRound1
              ((u16at (payloadOf r) 0 : ℚ) * cfg.socScale + cfg.socOffset))) ∧
      (¬ (0 ≤ (u16at (payloadOf r) 0 : ℚ) * cfg.socScale + cfg.socOffset ∧
          (u16at (payloadOf r) 0 : ℚ) * cfg.socScale + cfg.socOffset ≤ 100) →
        (indivSocStep cfg cmd r st).1.soc = st.1.soc))) ∧
    (∀ data : List ℕ, 2 ≤ data.length →
      cfg.socRegister ≠ 0x0028 → cfg.socRegister ≠ 0x0029 →
      cfg.socRegister ≠ 0x0000 → cfg.socRegister ≠ 0x0020 →
      (parse_register_data cfg cfg.socRegister data).soc
        = some ((u16at data 0 : ℚ) * 0.1)) := by
  refine ⟨?_, ?_, ?_⟩
  · intro bs d hpos hlen
    rw [extract_soc_field cfg bs d hpos hlen]
    constructor
    · intro hin
      rw [if_pos hin]
    · intro hout
      rw [if_neg hout]
  · intro cmd r st hne hpl
    simp only [indivSocStep]
    rw [if_pos hne, if_pos hpl]
    constructor
    · intro hin
      rw [if_pos hin]
    · intro hout
      rw [if_neg hout]
  · intro data hdata h28 h29 h00 h20
    simp only [parse_register_data]
    rw [if_neg (by rintro ⟨h, -⟩; exact h28 h),
      if_neg (by rintro ⟨h, -⟩; exact h29 h),
      if_neg h00, if_neg h20, if_pos ⟨trivial, hdata⟩]

/-- Witness for C4 amended: a 90-byte bulk payload carrying raw SOC 800
(80.0 %) at the default register 0x2C, and the generic parser on raw
2001. -/
theorem C4_soc_decode_amended_witness :
    (extract_from_large_response defaultConfig (List.replicate 88 0 ++ [0x03, 0x20])
        { }).2.soc
      = some (pyRound1
          ((u16at (List.replicate 88 0 ++ [0x03, 0x20]) (defaultConfig.socRegister * 2) : ℚ)
            * defaultConfig.socScale + defaultConfig.socOffset)) ∧
    (parse_register_data defaultConfig defaultConfig.socRegister [0x07, 0xD1]).soc
      = some ((u16at [0x07, 0xD1] 0 : ℚ) * 0.1) :=
  ⟨(((C4_soc_decode_amended defaultConfig).1 (List.replicate 88 0 ++ [0x03, 0x20])
      { } (by decide) (by decide)).1 (by with_unfolding_all decide)),
   ((C4_soc_decode_amended defaultConfig).2.2 [0x07, 0xD1] (by decide) (by decide)
      (by decide) (by decide) (by decide))⟩

/-! ## C10 — bulk extraction bounds -/

/-- C10: payloads shorter than 80 bytes (160 hex characters) are rejected
with no fields added; on longer payloads each scalar field is populated
only when both of its register's bytes lie inside the payload, so a
truncated payload populates only the fields that fit. -/
theorem C10_bulk_extraction_bounds (cfg : BMSConfig) :
    (∀ (bs : List ℕ) (d : Rec), bs.length < 80 →
      extract_from_large_response cfg bs d = (false, d)) ∧
    (∀ (bs : List ℕ) (d : Rec),
      ((extract_from_large_response cfg bs d).2.total_voltage ≠ d.total_voltage →
        0x28 * 2 + 1 < bs.length) ∧
      ((extract_from_large_response cfg bs d).2.current ≠ d.current →
        0x29 * 2 + 1 < bs.length) ∧
      ((extract_from_large_response cfg bs d).2.soc ≠ d.soc →
        cfg.socRegister * 2 + 1 < bs.length) ∧
      ((extract_from_large_response cfg bs d).2.cells ≠ d.cells → 80 ≤ bs.length) ∧
      ((extract_from_large_response cfg bs d).2.temperatures ≠ d.temperatures →
        80 ≤ bs.length)) := by
  refine ⟨?_, ?_⟩
  · intro bs d hlen
    simp only [extract_from_large_response]
    rw [if_pos (by omega)]
  · intro bs d
    by_cases hg : bs.length * 2 < 160
    · have heq : extract_from_large_response cfg bs d = (false, d) := by
        simp only [extract_from_large_response]
        rw [if_pos hg]
      rw [heq]
      exact ⟨fun h => absurd rfl h, fun h => absurd rfl h, fun h => absurd rfl h,
        fun h => absurd rfl h, fun h => absurd rfl h⟩
    · have h80 : 80 ≤ bs.length := by omega
      have hunf : (extract_from_large_response cfg bs d).2
          = (extractTemps bs (extractCells bs (extractSoc cfg bs (extractCurrent bs
              (extractVoltage bs (d, false)))))).1 := by
        simp only [extract_from_large_response]
        rw [if_neg hg]
      refine ⟨?_, ?_, ?_, fun _ => h80, fun _ => h80⟩
      · intro hne
        by_contra hlen
        apply hne
        rw [hunf, (extractTemps_other _ _).1, (extractCells_other _ _).1,
          (extractSoc_other _ _ _).1, (extractCurrent_other _ _).1,
          extractVoltage_skip _ _ hlen]
      · intro hne
        by_contra hlen
        apply hne
        rw [hunf, (extractTemps_other _ _).2.1, (extractCells_other _ _).2.1,
          (extractSoc_other _ _ _).2.1, (extractCurrent_skip _ _ hlen).1,
          (extractVoltage_other _ _).1]
      · intro hne
        by_contra hlen
        apply hne
        rw [hunf, (extractTemps_other _ _).2.2.2.1, (extractCells_other _ _).2.2.2.1,
          extractSoc_skip _ _ _ hlen, (extractCurrent_other _ _).2.1,
          (extractVoltage_other _ _).2.2.1]

/-- Witness for C10 on the empty payload. -/
theorem C10_bulk_extraction_bounds_witness :
    extract_from_large_response defaultConfig [] { } = (false, { }) :=
  (C10_bulk_extraction_bounds defaultConfig).1 [] { } (by norm_num)

/-! ## C7 — response validation -/

/-- C7 counterexample: the structurally well-formed response
`D2 03 02 01 18 00 00` has an invalid trailing CRC, yet
`parse_modbus_response` does not reject it: it returns a non-error result
with `crc_valid = false` and a populated `total_voltage` of 28.0 V. -/
theorem C7_counterexample :
    crcTrailingValid [0xD2, 0x03, 0x02, 0x01, 0x18, 0x00, 0x00] = false ∧
    parse_modbus_response defaultConfig (build_modbus_command 0x0028 1)
        [0xD2, 0x03, 0x02, 0x01, 0x18, 0x00, 0x00]
      = .ok [0x01, 0x18] 2 false { total_voltage := some 28 } := by
  with_unfolding_all decide

/-- C7 amended: `parse_modbus_response` applies the checks in the stated
order — length ≥ 5, slave byte 0xD2, function byte (exception if the high
bit is set, else 0x03), declared-length consistency — and is total (never
throws); the trailing CRC, however, is not a rejection: a structurally
valid response always yields a non-error result whose `crc_valid` flag
records the CRC comparison and whose fields are populated regardless. -/
theorem C7_validation_amended (cfg : BMSConfig) :
    (∀ cmd resp : List ℕ, resp.length < 5 →
      parse_modbus_response cfg cmd resp = .err .tooShort) ∧
    (∀ cmd resp : List ℕ, 5 ≤ resp.length → resp.getD 0 0 ≠ 0xD2 →
      parse_modbus_response cfg cmd resp = .err (.wrongSlave (resp.getD 0 0))) ∧
    (∀ cmd resp : List ℕ, 5 ≤ resp.length → resp.getD 0 0 = 0xD2 →
      resp.getD 1 0 ≠ 0x03 → resp.getD 1 0 &&& 0x80 ≠ 0 →
      parse_modbus_response cfg cmd resp
        = .err (.modbusException (resp.getD 1 0) (resp.getD 2 0))) ∧
    (∀ cmd resp : List ℕ, 5 ≤ resp.length → resp.getD 0 0 = 0xD2 →
      resp.getD 1 0 ≠ 0x03 → resp.getD 1 0 &&& 0x80 = 0 →
      parse_modbus_response cfg cmd resp = .err (.wrongFunc (resp.getD 1 0))) ∧
    (∀ cmd resp : List ℕ, 5 ≤ resp.length → resp.getD 0 0 = 0xD2 →
      resp.getD 1 0 = 0x03 → resp.length < 3 + resp.getD 2 0 + 2 →
      parse_modbus_response cfg cmd resp = .err .lenShort) ∧
    (∀ cmd resp : List ℕ, 5 ≤ resp.length → resp.getD 0 0 = 0xD2 →
      resp.getD 1 0 = 0x03 → 3 + resp.getD 2 0 + 2 ≤ resp.length →
      parse_modbus_response cfg cmd resp
        = .ok ((resp.drop 3).take (resp.getD 2 0)) (resp.getD 2 0)
            (crcTrailingValid resp)
            (if 6 ≤ cmd.length then
              parse_register_data cfg ((cmd.getD 2 0) <<< 8 ||| cmd.getD 3 0)
                ((resp.drop 3).take (resp.getD 2 0))
            else {})) := by
  refine ⟨?_, ?_, ?_, ?_, ?_, ?_⟩
  · intro cmd resp h
    simp only [parse_modbus_response]
    rw [if_pos h]
  · intro cmd resp h5 hs
    simp only [parse_modbus_response]
    rw [if_neg (not_lt.mpr h5), if_pos hs]
  · intro cmd resp h5 hs hf hbit
    simp only [parse_modbus_response]
    rw [if_neg (not_lt.mpr h5), if_neg (fun hne => hne hs), if_pos hf,
      if_pos hbit, if_pos (by omega)]
  · intro cmd resp h5 hs hf hbit
    simp only [parse_modbus_response]
    rw [if_neg (not_lt.mpr h5), if_neg (fun hne => hne hs), if_pos hf,
      if_neg (fun hne => hne hbit)]
  · intro cmd resp h5 hs hf hlen
    simp only [parse_modbus_response]
    rw [if_neg (not_lt.mpr h5), if_neg (fun hne => hne hs),
      if_neg (fun hne => hne hf), if_pos hlen]
  · intro cmd resp h5 hs hf hlen
    simp only [parse_modbus_response]
    rw [if_neg (not_lt.mpr h5), if_neg (fun hne => hne hs),
      if_neg (fun hne => hne hf), if_neg (not_lt.mpr hlen)]

/-- Witness for C7 amended: the empty response is rejected as too short,
and a minimal structurally valid frame parses to a non-error result
carrying its `crc_valid` flag. -/
theorem C7_validation_amended_witness :
    parse_modbus_response defaultConfig [] [] = .err .tooShort ∧
    parse_modbus_response defaultConfig [] [0xD2, 0x03, 0x00, 0xE9, 0xCA]
      = .ok [] 0 (crcTrailingValid [0xD2, 0x03, 0x00, 0xE9, 0xCA]) {} :=
  ⟨(C7_validation_amended defaultConfig).1 [] [] (by norm_num),
   (C7_validation_amended defaultConfig).2.2.2.2.2 [] [0xD2, 0x03, 0x00, 0xE9, 0xCA]
     (by norm_num) (by decide) (by decide) (by decide)⟩

/-! ## C2 — tick behaviour when nothing decodes -/

/-- `read_bms_data` either fails leaving the state untouched or succeeds
incrementing `read_count`. -/
lemma read_bms_data_cases (cfg : BMSConfig) (env : Env) (st : SchedState) :
    read_bms_data cfg env st = (none, st) ∨
    ∃ d, read_bms_data cfg env st
      = (some d, { st with read_count := st.read_count + 1 }) := by
  by_cases hc : st.connected = false
  · left
    simp only [read_bms_data]
    rw [if_pos hc]
  · simp only [read_bms_data]
    rw [if_neg hc]
    rcases firstBulkExtract cfg (build_modbus_command 0x0000 0x003E)
        (env.responses (build_modbus_command 0x0000 0x003E))
        { connection_status := some "connected" } with _ | d
    · rcases read_individual_registers cfg env
          { connection_status := some "connected" } with ⟨ok, d'⟩
      cases ok
      · left
        rfl
      · right
        exact ⟨_, rfl⟩
    · right
      exact ⟨_, rfl⟩

lemma read_bms_data_none_state (cfg : BMSConfig) (env : Env) (st : SchedState)
    (h : (read_bms_data cfg env st).1 = none) :
    (read_bms_data cfg env st).2 = st := by
  rcases read_bms_data_cases cfg env st with he | ⟨d, he⟩
  · rw [he]
  · rw [he] at h
    simp at h

/-- C2 amended: whenever the read pipeline decodes nothing (e.g. the bulk
read returns only CRC-invalid frames and the per-register fallback yields
no field), the monitoring tick emits no telemetry record at all, fires no
alerts, and leaves the scheduler state — both counters and the link
flag — unchanged, so the next tick proceeds normally. -/
theorem C2_no_data_tick_amended (cfg : BMSConfig) (env : Env) (st : SchedState)
    (hc : st.connected = true)
    (hread : (read_bms_data cfg env st).1 = none) :
    monitoring_tick cfg env st = { record := none, alerts := [], state := st } := by
  have hstate := read_bms_data_none_state cfg env st hread
  have hpair : read_bms_data cfg env st = (none, st) := Prod.ext hread hstate
  unfold monitoring_tick
  rw [if_pos hc, hpair]

/-- Witness for C2 amended in the all-frames-CRC-invalid environment. -/
theorem C2_no_data_tick_amended_witness :
    monitoring_tick defaultConfig envBad ⟨true, 0, 0⟩
      = { record := none, alerts := [], state := ⟨true, 0, 0⟩ } :=
  C2_no_data_tick_amended defaultConfig envBad ⟨true, 0, 0⟩ rfl
    (by with_unfolding_all decide)

/-- C2 counterexample: in the environment where every frame returned has an
invalid trailing CRC (and the fallback decodes nothing), the tick emits NO
telemetry record (so no record with `status = no_data` exists), fires no
alerts, and leaves `error_count` at 7 instead of incrementing it to 8 —
and the link stays connected. -/
theorem C2_counterexample :
    (∀ r ∈ envBad.responses (build_modbus_command 0x0000 0x003E),
      crcTrailingValid r = false) ∧
    (read_bms_data defaultConfig envBad ⟨true, 5, 7⟩).1 = none ∧
    (monitoring_tick defaultConfig envBad ⟨true, 5, 7⟩).record = none ∧
    (monitoring_tick defaultConfig envBad ⟨true, 5, 7⟩).alerts = [] ∧
    (monitoring_tick defaultConfig envBad ⟨true, 5, 7⟩).state
      = ⟨true, 5, 7⟩ := by
  with_unfolding_all decide

end BMS
